import Mathlib

/-!
Verification development for the Student Management System server
(`src/server.js`): a CRUD REST API over MongoDB via mongoose/Express.

The route handlers, the connection cache and the helper functions are
shallowly embedded here.  The document store is modelled as explicit lists
of student and course documents; each handler becomes a pure function
from the database state (and the request data) to an HTTP status / body
and the resulting database state.  External library behaviour that the
handlers rely on (the mongoose unique index on `email`, `ObjectId.isValid`,
MongoDB `$regex` matching, `$group` aggregation) is modelled by its
documented semantics.  JavaScript number arithmetic is modelled with
exact integers and rationals.
-/

namespace SMS

/-- A student document, as described by `studentSchema` (server.js:128-137):
`name`, `email` (unique), `course` (free-text reference), `enrollmentDate`,
`status` (enum "active"/"inactive"); `id` is the MongoDB `_id`.  `status`
is kept as a `String` because the store itself is schema-flexible; the
schema's enum constraint appears as a hypothesis where a claim needs it.
`enrollmentDate` is epoch milliseconds; the system-managed timestamps are
not used by any modelled route and are omitted. -/
structure Student where
  id : String
  name : String
  email : String
  course : String
  enrollmentDate : Int
  status : String
  deriving DecidableEq, Repr

/-- A course document, as described by `courseSchema` (server.js:141-150). -/
structure Course where
  id : String
  name : String
  description : String
  duration : Int
  status : String
  deriving DecidableEq, Repr

/-- The document store: the `students` and `courses` collections. -/
structure Db where
  students : List Student
  courses : List Course
  deriving DecidableEq, Repr

/-! ### `formatUptime` (server.js:480-499)

The JavaScript function first applies `Math.floor`; we model the already
floored input as a `Nat` (process uptime is non-negative). -/

/-- Embedding of `formatUptime` (server.js:480-499): decompose into
days / hours / minutes / seconds, push the non-zero `d`/`h`/`m` parts, and
push the seconds part when the list is still empty or the remaining
seconds are non-zero; join with single spaces. -/
def formatUptime (seconds : Nat) : String :=
  let days := seconds / 86400
  let s1 := seconds % 86400
  let hours := s1 / 3600
  let s2 := s1 % 3600
  let minutes := s2 / 60
  let remainingSeconds := s2 % 60
  let parts : List String := []
  let parts := if days > 0 then parts ++ [toString days ++ "d"] else parts
  let parts := if hours > 0 then parts ++ [toString hours ++ "h"] else parts
  let parts := if minutes > 0 then parts ++ [toString minutes ++ "m"] else parts
  let parts :=
    if parts.length = 0 || remainingSeconds > 0 then
      parts ++ [toString remainingSeconds ++ "s"]
    else parts
  String.intercalate " " parts

/-- The uptime format as the specification words it: render
days/hours/minutes/seconds, omit the zero units among days, hours and
minutes, and include the seconds part whenever the seconds value is
non-zero or every other part is zero. -/
def formatUptimeSpec (seconds : Nat) : String :=
  let days := seconds / 86400
  let hours := seconds % 86400 / 3600
  let minutes := seconds % 3600 / 60
  let secs := seconds % 60
  let parts : List String :=
    (if days > 0 then [toString days ++ "d"] else []) ++
    (if hours > 0 then [toString hours ++ "h"] else []) ++
    (if minutes > 0 then [toString minutes ++ "m"] else []) ++
    (if secs > 0 || (days = 0 && hours = 0 && minutes = 0) then
      [toString secs ++ "s"] else [])
  String.intercalate " " parts

/-! ### The connection cache and `connectDB` (server.js:26-60)

The process-wide cache holds `conn` (the resolved handle) and `promise`
(the settled outcome of the one in-flight `mongoose.connect` call; in the
source it is a JavaScript promise, which once settled permanently holds
either its value or its rejection).  The handle is abstract; we use `Nat`.
A call to `connectDB` is a function of the cache state, of whether
`MONGO_URI` is defined, and of the outcome a *fresh* `mongoose.connect`
attempt would produce on this call; the fresh outcome is consumed only on
the branch where the source actually calls `mongoose.connect`. -/

deriving instance DecidableEq for Except

/-- The `global.mongoose` cache object (server.js:26-29):
`conn` is `null` or a handle, `promise` is `null` or a settled promise
(resolved handle or rejection message). -/
structure ConnCache where
  conn : Option Nat
  promise : Option (Except String Nat)
  deriving DecidableEq, Repr

/-- The initial cache, `{ conn: null, promise: null }`. -/
def ConnCache.init : ConnCache := { conn := none, promise := none }

/-- Embedding of `connectDB` (server.js:31-60).
Step 1: return `cached.conn` if set.  Step 2: if `cached.promise` is
unset, throw when `MONGO_URI` is undefined, otherwise store the new
connection attempt (`attempt` is its settled outcome) in
`cached.promise`.  Step 3: await the stored promise; on success store the
handle in `cached.conn` and return it; a rejection propagates (the
`catch` rethrows) and the assignment to `cached.conn` never runs, while
`cached.promise` keeps the rejected promise. -/
def connectDB (cache : ConnCache) (uriDefined : Bool)
    (attempt : Except String Nat) : Except String Nat × ConnCache :=
  match cache.conn with
  | some c => (.ok c, cache)
  | none =>
    match cache.promise with
    | some p =>
      match p with
      | .ok h => (.ok h, { cache with conn := some h })
      | .error e => (.error e, cache)
    | none =>
      if uriDefined then
        match attempt with
        | .ok h => (.ok h, { conn := some h, promise := some (.ok h) })
        | .error e => (.error e, { cache with promise := some (.error e) })
      else
        (.error "MONGO_URI is not defined in environment variables.", cache)

/-- Embedding of `ensureDbConnection` (server.js:157-165): a failed
`connectDB` call is answered with status 503 before any route handler
runs; on success the request proceeds (`none`). -/
def ensureDbConnection (r : Except String Nat) : Option Nat :=
  match r with
  | .ok _ => none
  | .error _ => some 503

/-! ### `GET /api/students/:id` (server.js:366-382) -/

/-- Hexadecimal digit test (`0-9a-fA-F`). -/
def isHexChar (c : Char) : Bool :=
  c.isDigit || (97 ≤ c.toNat && c.toNat ≤ 102) || (65 ≤ c.toNat && c.toNat ≤ 70)

/-- Model of `mongoose.Types.ObjectId.isValid` (an external library
function the handler calls, server.js:368): a string is accepted exactly
when it is a 24-character hexadecimal string or has length 12 (a
12-byte binary id). -/
def isValidObjectId (s : String) : Bool :=
  (s.length = 24 && s.toList.all isHexChar) || s.length = 12

/-- Model of `Student.findById`: the unique document with the given `_id`
(modelled as the first match; `_id` is the primary key). -/
def findStudentById (db : Db) (sid : String) : Option Student :=
  db.students.find? (fun s => s.id = sid)

/-- Embedding of the `GET /api/students/:id` handler (server.js:366-382):
reject malformed ids with 400 before querying, answer 404 when no
document matches, otherwise 200 with the record. -/
def getStudentHandler (db : Db) (sid : String) : Nat × Option Student :=
  if !isValidObjectId sid then
    (400, none)
  else
    match findStudentById db sid with
    | none => (404, none)
    | some s => (200, some s)

/-! ### Course handlers (server.js:221-265) -/

/-- Model of `Student.countDocuments({ course: cid })` (server.js:223-225). -/
def countStudentsInCourse (db : Db) (cid : String) : Nat :=
  (db.students.filter (fun s => s.course = cid)).length

/-- Model of `Course.findById`: the unique document with the given `_id`. -/
def findCourseById (db : Db) (cid : String) : Option Course :=
  db.courses.find? (fun c => c.id = cid)

/-- Model of `Course.findByIdAndDelete`: remove the (unique) document with the
given `_id` from the collection. -/
def removeCourseById : List Course → String → List Course
  | [], _ => []
  | c :: rest, cid =>
    if c.id = cid then rest else c :: removeCourseById rest cid

/-- Embedding of the `DELETE /api/courses/:id` handler
(server.js:221-252): first count the students whose `course` field equals
the id and refuse with 400 if any exist; then delete by id, answering 404
when no course matches and 200 with a confirmation otherwise.  The result
is (status, message, resulting database). -/
def deleteCourseHandler (db : Db) (cid : String) : (Nat × String) × Db :=
  let enrolledStudents := countStudentsInCourse db cid
  if enrolledStudents > 0 then
    ((400, "Cannot delete course with enrolled students"), db)
  else
    match findCourseById db cid with
    | none => ((404, "Course not found"), db)
    | some _ =>
      ((200, "Course deleted successfully"),
        { db with courses := removeCourseById db.courses cid })

/-- Embedding of the `GET /api/courses/:id` handler (server.js:254-265):
404 when no course matches, otherwise 200 with the record. -/
def getCourseHandler (db : Db) (cid : String) : Nat × Option Course :=
  match findCourseById db cid with
  | none => (404, none)
  | some c => (200, some c)

/-! ### Student create / update / delete (server.js:282-340)

`studentSchema` declares `email` with `unique: true` (server.js:131),
which mongoose realises as a MongoDB unique index: any `save` or update
that would leave two documents with the same `email` is rejected by the
store, and the route's `catch` turns that into a 400.  The embeddings
below model that index check explicitly. -/

/-- A `POST /api/students` request body (the schema's required fields). -/
structure NewStudent where
  name : String
  email : String
  course : String
  enrollmentDate : Int
  status : String
  deriving DecidableEq, Repr

/-- Embedding of the `POST /api/students` handler (server.js:282-296):
`new Student(body).save()` inserts a fresh document (with the
store-generated id `freshId`) unless the unique index on `email` rejects
it, in which case the `catch` answers 400 and nothing is persisted. -/
def createStudentHandler (db : Db) (freshId : String) (body : NewStudent) :
    Nat × Db :=
  if db.students.any (fun s => s.email = body.email) then
    (400, db)
  else
    (201, { db with students :=
      db.students ++
        [⟨freshId, body.name, body.email, body.course,
          body.enrollmentDate, body.status⟩] })

/-- A `PUT /api/students/:id` request body: a partial update, each field
optionally present (absent fields are left unchanged by the store). -/
structure StudentPatch where
  name : Option String
  email : Option String
  course : Option String
  enrollmentDate : Option Int
  status : Option String
  deriving DecidableEq, Repr

/-- Merge a partial update into a document (`findByIdAndUpdate`
semantics: present fields overwrite, absent fields persist). -/
def applyPatch (s : Student) (p : StudentPatch) : Student :=
  { s with
    name := p.name.getD s.name
    email := p.email.getD s.email
    course := p.course.getD s.course
    enrollmentDate := p.enrollmentDate.getD s.enrollmentDate
    status := p.status.getD s.status }

/-- Replace the (unique) document with the given `_id`. -/
def replaceStudentById : List Student → String → Student → List Student
  | [], _, _ => []
  | s :: rest, sid, s2 =>
    if s.id = sid then s2 :: rest else s :: replaceStudentById rest sid s2

/-- Embedding of the `PUT /api/students/:id` handler (server.js:298-319):
`findByIdAndUpdate` answers 404 when no document matches; a modification
that would duplicate another document's `email` is rejected by the unique
index and answered 400 by the `catch`; otherwise the merged document is
stored and answered with 200. -/
def updateStudentHandler (db : Db) (sid : String) (p : StudentPatch) :
    Nat × Db :=
  match findStudentById db sid with
  | none => (404, db)
  | some s =>
    let s2 := applyPatch s p
    if db.students.any (fun t => t.id ≠ sid && t.email = s2.email) then
      (400, db)
    else
      (200, { db with students := replaceStudentById db.students sid s2 })

/-- Remove the (unique) student document with the given `_id`. -/
def removeStudentById : List Student → String → List Student
  | [], _ => []
  | s :: rest, sid =>
    if s.id = sid then rest else s :: removeStudentById rest sid

/-- Embedding of the `DELETE /api/students/:id` handler
(server.js:321-340): 404 when no document matches, otherwise delete and
answer 200. -/
def deleteStudentHandler (db : Db) (sid : String) : Nat × Db :=
  match findStudentById db sid with
  | none => (404, db)
  | some _ => (200, { db with students := removeStudentById db.students sid })

/-! ### `GET /api/students/search` (server.js:342-364)

The handler passes the raw query string to MongoDB as
`{ $regex: searchTerm, $options: "i" }` on each of the three fields: the
query is interpreted as a *regular-expression pattern*, not as a literal
substring.  We model the fragment of `$regex` semantics for patterns
built from literal characters and the `.` wildcard (case-insensitive
matching per the `i` option; `.` matches any character except a
newline; a match may occur anywhere in the field since the pattern is
unanchored).  Patterns using other regex metacharacters are outside the
modelled fragment, and every theorem about the search restricts the
query accordingly. -/

/-- One width-one regex atom: the `.` wildcard or a literal character. -/
inductive PatAtom where
  | dot
  | lit (c : Char)
  deriving DecidableEq, Repr

/-- Translate a query string into its regex atoms (`.` is the wildcard,
every other character in the modelled fragment stands for itself). -/
def parseQuery (q : String) : List PatAtom :=
  q.toList.map (fun c => if c = '.' then PatAtom.dot else PatAtom.lit c)

/-- Case-insensitive match of one atom against one character. -/
def atomMatches (a : PatAtom) (c : Char) : Bool :=
  match a with
  | .dot => c ≠ '\n'
  | .lit l => l.toLower = c.toLower

/-- Match the whole atom list against a prefix of the text. -/
def matchesAt : List PatAtom → List Char → Bool
  | [], _ => true
  | _ :: _, [] => false
  | a :: ps, c :: cs => atomMatches a c && matchesAt ps cs

/-- Unanchored regex match: the atom list matches at some position. -/
def regexTest (p : List PatAtom) : List Char → Bool
  | [] => matchesAt p []
  | c :: cs => matchesAt p (c :: cs) || regexTest p cs

/-- Whether one student document matches the search filter
`$or: [name $regex, course $regex, email $regex]` (server.js:347-353). -/
def studentMatchesQuery (q : String) (s : Student) : Bool :=
  regexTest (parseQuery q) s.name.toList ||
  regexTest (parseQuery q) s.course.toList ||
  regexTest (parseQuery q) s.email.toList

/-- Embedding of the `GET /api/students/search` handler
(server.js:342-364): every stored student matching the `$or` filter. -/
def searchStudentsHandler (db : Db) (q : String) : List Student :=
  db.students.filter (studentMatchesQuery q)

/-- Case-insensitive prefix test between character lists: the spec-side
notion used to define literal substring containment. -/
def prefixMatchCI : List Char → List Char → Bool
  | [], _ => true
  | _ :: _, [] => false
  | p :: ps, c :: cs => (p.toLower = c.toLower) && prefixMatchCI ps cs

/-- Case-insensitive literal substring containment, following the
specification words for the search: the pattern occurs contiguously,
compared case-insensitively, somewhere in the text. -/
def containsCI (p : List Char) : List Char → Bool
  | [] => prefixMatchCI p []
  | c :: cs => prefixMatchCI p (c :: cs) || containsCI p cs

/-- The search as the specification words it: exactly the students whose
name, email, or course case-insensitively contains the query as a
literal substring (logical OR across the three fields). -/
def specSearchStudents (db : Db) (q : String) : List Student :=
  db.students.filter (fun s =>
    containsCI q.toList s.name.toList ||
    containsCI q.toList s.email.toList ||
    containsCI q.toList s.course.toList)

/-- The regex metacharacters; a query avoiding all of them lies in the
literal fragment of `$regex` patterns. -/
def regexMetachars : List Char :=
  ['.', '^', '$', '*', '+', '?', '(', ')', '[', ']', '|', '\\',
   Char.ofNat 123, Char.ofNat 125]

/-! ### Dashboard statistics (server.js:401-420) -/

/-- JavaScript `Math.round` on an exact rational: JavaScript rounds half toward
positive infinity. -/
def jsRound (q : ℚ) : ℤ := ⌊q + 1 / 2⌋

/-- The object returned by `getDashboardStats`. -/
structure DashboardStats where
  totalStudents : Nat
  activeStudents : Nat
  totalCourses : Nat
  activeCourses : Nat
  graduates : Nat
  courseCounts : List (String × Nat)
  successRate : ℤ
  deriving DecidableEq, Repr

/-- Model of `countDocuments({ status: st })` over the students. -/
def countStudentsWithStatus (db : Db) (st : String) : Nat :=
  db.students.countP (fun s => s.status = st)

/-- Model of `countDocuments({ status: st })` over the courses. -/
def countCoursesWithStatus (db : Db) (st : String) : Nat :=
  db.courses.countP (fun c => c.status = st)

/-- One step of the `$group: { _id: "$course", count: { $sum: 1 } }`
aggregation: bump the count of the student's course value. -/
def bumpCourseCount : List (String × Nat) → String → List (String × Nat)
  | [], c => [(c, 1)]
  | (k, n) :: rest, c =>
    if k = c then (k, n + 1) :: rest else (k, n) :: bumpCourseCount rest c

/-- The `$group` aggregation over the student collection: student counts
per `course` value. -/
def courseCountsOf (students : List Student) : List (String × Nat) :=
  students.foldl (fun acc s => bumpCourseCount acc s.course) []

/-- Embedding of `getDashboardStats` (server.js:401-420): total and
active student counts, total and active course counts, graduates
(students with status "inactive"), the per-course breakdown, and
`successRate = Math.round(graduates / totalStudents * 100)` guarded to 0
when there are no students. -/
def getDashboardStats (db : Db) : DashboardStats :=
  let totalStudents := db.students.length
  let activeStudents := countStudentsWithStatus db "active"
  let totalCourses := db.courses.length
  let activeCourses := countCoursesWithStatus db "active"
  let graduates := countStudentsWithStatus db "inactive"
  let courseCounts := courseCountsOf db.students
  { totalStudents := totalStudents
    activeStudents := activeStudents
    totalCourses := totalCourses
    activeCourses := activeCourses
    graduates := graduates
    courseCounts := courseCounts
    successRate :=
      if totalStudents > 0 then
        jsRound ((graduates : ℚ) / (totalStudents : ℚ) * 100)
      else 0 }

/-- The success rate as the specification words it:
`round(graduates / totalStudents × 100)`, defined as 0 when there are no
students. -/
def specSuccessRate (graduates totalStudents : Nat) : ℤ :=
  if totalStudents = 0 then 0
  else jsRound (100 * (graduates : ℚ) / (totalStudents : ℚ))

/-! ## Supporting lemmas -/

/-- A student enrolled in the course makes `countDocuments` positive. -/
theorem countStudentsInCourse_pos (db : Db) (cid : String)
    (h : ∃ s ∈ db.students, s.course = cid) : 0 < countStudentsInCourse db cid := by
  obtain ⟨s, hs, hc⟩ := h
  have hmem : s ∈ db.students.filter (fun s => s.course = cid) :=
    List.mem_filter.2 ⟨hs, by simp [hc]⟩
  exact List.length_pos_of_mem hmem

/-! ## Claim C1: the connection cache after a failed attempt -/

/-- C1, counterexample.  First call on the empty cache with a failing
connection attempt: the call fails.  Second call, where a *fresh*
connection attempt would succeed (`.ok 7`): the handler still returns the
old cached failure, because `cached.promise` kept the rejected promise —
a subsequent call does not start a new connection attempt. -/
theorem c1_connectDB_counterexample :
    (connectDB ConnCache.init true (Except.error "boom")).1 = Except.error "boom" ∧
    (connectDB (connectDB ConnCache.init true (Except.error "boom")).2 true
        (Except.ok 7)).1 = Except.error "boom" ∧
    (connectDB (connectDB ConnCache.init true (Except.error "boom")).2 true
        (Except.ok 7)).2 = (connectDB ConnCache.init true (Except.error "boom")).2 := by
  decide

/-- C1, amended: a failed connection attempt leaves the rejected promise
in the process-wide cache.  The failing call stores the rejection in
`cached.promise`, and every subsequent call — whatever a fresh attempt
would produce — returns that same cached failure without starting a new
attempt, leaves the cache unchanged, and is answered 503 by
`ensureDbConnection`; the cache is permanently poisoned. -/
theorem c1_connectDB_amended (e : String) :
    connectDB ConnCache.init true (Except.error e)
      = (Except.error e, { conn := none, promise := some (Except.error e) }) ∧
    ∀ (uriDefined : Bool) (attempt : Except String Nat),
      connectDB { conn := none, promise := some (Except.error e) } uriDefined attempt
        = (Except.error e, { conn := none, promise := some (Except.error e) }) ∧
      ensureDbConnection
        (connectDB { conn := none, promise := some (Except.error e) }
          uriDefined attempt).1 = some 503 := by
  refine ⟨rfl, fun uriDefined attempt => ⟨rfl, rfl⟩⟩

/-! ## Claim C2: `formatUptime` -/

/-- C2, counterexample.  `formatUptime 86461` yields `"1d 1m 1s"`: the
zero hours unit is omitted, so the output is not `"1d 0h 1m 1s"`. -/
theorem c2_formatUptime_counterexample :
    formatUptime 86461 = "1d 1m 1s" ∧ formatUptime 86461 ≠ "1d 0h 1m 1s" := by
  decide

/-- C2, amended: `formatUptime` maps 0 to `"0s"`, 90 to `"1m 30s"` and
86461 to `"1d 1m 1s"`; in general it renders days/hours/minutes/seconds,
omitting the zero units among days, hours and minutes, and including the
seconds part whenever seconds is non-zero or every other part is zero
(so `formatUptime` agrees everywhere with the specification-side
formatter stating that rule). -/
theorem c2_formatUptime_amended :
    formatUptime 0 = "0s" ∧ formatUptime 90 = "1m 30s" ∧
    formatUptime 86461 = "1d 1m 1s" ∧
    ∀ n, formatUptime n = formatUptimeSpec n := by
  refine ⟨by decide, by decide, by decide, fun n => ?_⟩
  have h1 : n % 86400 % 3600 = n % 3600 := Nat.mod_mod_of_dvd n (by norm_num)
  have h2 : n % 3600 % 60 = n % 60 := Nat.mod_mod_of_dvd n (by norm_num)
  simp only [formatUptime, formatUptimeSpec, h1, h2]
  rcases eq_or_ne (n / 86400) 0 with hd | hd <;>
    rcases eq_or_ne (n % 86400 / 3600) 0 with hh | hh <;>
      rcases eq_or_ne (n % 3600 / 60) 0 with hm | hm <;>
        rcases eq_or_ne (n % 60) 0 with hs | hs <;>
          simp [hd, hh, hm, hs, Nat.pos_iff_ne_zero]

/-! ## Claim C4: deleting a course that still has students -/

/-- C4: when at least one student's `course` field equals the target
identifier, `DELETE /api/courses/:id` answers 400 with the conflict
message and leaves the database unchanged; in particular the course, if
present, is still found afterwards. -/
theorem c4_deleteCourse_conflict (db : Db) (cid : String)
    (h : ∃ s ∈ db.students, s.course = cid) :
    deleteCourseHandler db cid
      = ((400, "Cannot delete course with enrolled students"), db) ∧
    findCourseById (deleteCourseHandler db cid).2 cid = findCourseById db cid := by
  have hpos := countStudentsInCourse_pos db cid h
  constructor <;> simp [deleteCourseHandler, hpos]

/-- C4, witness: one student enrolled in course `"c1"`, which exists. -/
theorem c4_deleteCourse_conflict_witness :
    deleteCourseHandler
        ⟨[⟨"0123456789abcdef01234567", "Alice", "alice@example.com", "c1", 0, "active"⟩],
         [⟨"c1", "Algebra", "intro", 6, "active"⟩]⟩ "c1"
      = ((400, "Cannot delete course with enrolled students"),
         ⟨[⟨"0123456789abcdef01234567", "Alice", "alice@example.com", "c1", 0, "active"⟩],
          [⟨"c1", "Algebra", "intro", 6, "active"⟩]⟩) :=
  (c4_deleteCourse_conflict
    ⟨[⟨"0123456789abcdef01234567", "Alice", "alice@example.com", "c1", 0, "active"⟩],
     [⟨"c1", "Algebra", "intro", 6, "active"⟩]⟩ "c1" (by decide)).1

/-! ## Claim C9: the dependent-student check runs before the existence check -/

/-- C9: in `DELETE /api/courses/:id` the enrolled-student count is checked
before course existence: when no course has the identifier but some
student's `course` field equals it, the handler answers 400 with the
conflict message, not 404. -/
theorem c9_deleteCourse_conflict_before_notFound (db : Db) (cid : String)
    (_hnone : findCourseById db cid = none)
    (hex : ∃ s ∈ db.students, s.course = cid) :
    (deleteCourseHandler db cid).1
      = (400, "Cannot delete course with enrolled students") := by
  have hpos := countStudentsInCourse_pos db cid hex
  simp [deleteCourseHandler, hpos]

/-- C9, witness: a student references course id `"c9"` but no course with
that identifier exists. -/
theorem c9_deleteCourse_conflict_before_notFound_witness :
    (deleteCourseHandler
        ⟨[⟨"0123456789abcdef01234567", "Bob", "bob@example.com", "c9", 0, "active"⟩],
         []⟩ "c9").1
      = (400, "Cannot delete course with enrolled students") :=
  c9_deleteCourse_conflict_before_notFound
    ⟨[⟨"0123456789abcdef01234567", "Bob", "bob@example.com", "c9", 0, "active"⟩], []⟩
    "c9" (by decide) (by decide)

/-! ## Claim C5: `GET /api/students/:id` -/

/-- C5: a malformed identifier is answered 400 uniformly in the database
state (the store is never consulted); a well-formed identifier matching
no student is answered 404; a matching student is answered 200 with the
record. -/
theorem c5_getStudent_cases (db : Db) (sid : String) :
    (isValidObjectId sid = false →
      getStudentHandler db sid = (400, none) ∧
        ∀ db2, getStudentHandler db2 sid = getStudentHandler db sid)
    ∧ (isValidObjectId sid = true → findStudentById db sid = none →
        getStudentHandler db sid = (404, none))
    ∧ (∀ s, isValidObjectId sid = true → findStudentById db sid = some s →
        getStudentHandler db sid = (200, some s)) := by
  refine ⟨fun h => ⟨?_, fun db2 => ?_⟩, fun h hf => ?_, fun s h hf => ?_⟩ <;>
    simp_all [getStudentHandler]

/-- C5, witness: a malformed id is answered 400 on a non-empty store, a
well-formed absent id 404, and a present id 200 with the record. -/
theorem c5_getStudent_cases_witness :
    getStudentHandler
        ⟨[⟨"0123456789abcdef01234567", "Ada", "ada@example.com", "c1", 0, "active"⟩], []⟩
        "not-an-id" = (400, none) ∧
    getStudentHandler (⟨[], []⟩ : Db) "0123456789abcdef01234567" = (404, none) ∧
    getStudentHandler
        ⟨[⟨"0123456789abcdef01234567", "Ada", "ada@example.com", "c1", 0, "active"⟩], []⟩
        "0123456789abcdef01234567"
      = (200, some ⟨"0123456789abcdef01234567", "Ada", "ada@example.com", "c1", 0,
          "active"⟩) :=
  ⟨(c5_getStudent_cases
      ⟨[⟨"0123456789abcdef01234567", "Ada", "ada@example.com", "c1", 0, "active"⟩], []⟩
      "not-an-id").1 (by decide) |>.1,
   (c5_getStudent_cases (⟨[], []⟩ : Db) "0123456789abcdef01234567").2.1
      (by decide) (by decide),
   (c5_getStudent_cases
      ⟨[⟨"0123456789abcdef01234567", "Ada", "ada@example.com", "c1", 0, "active"⟩], []⟩
      "0123456789abcdef01234567").2.2
      ⟨"0123456789abcdef01234567", "Ada", "ada@example.com", "c1", 0, "active"⟩
      (by decide) (by decide)⟩

/-! ## Claim C6: the dashboard success rate -/

/-- C6: `getDashboardStats` returns
`successRate = round(100 · graduates / totalStudents)` (JavaScript
rounding, half toward positive infinity) whenever there is at least one
student, and 0 when there are none — i.e. it agrees with the
specification-side formula at the graduate and total counts of the
store. -/
theorem c6_successRate_formula (db : Db) :
    (getDashboardStats db).successRate =
      specSuccessRate (countStudentsWithStatus db "inactive") db.students.length := by
  have key : ∀ g n : ℕ,
      (if n > 0 then jsRound ((g : ℚ) / (n : ℚ) * 100) else 0)
        = (if n = 0 then 0 else jsRound (100 * (g : ℚ) / (n : ℚ))) := by
    intro g n
    rcases Nat.eq_zero_or_pos n with h | h
    · simp [h]
    · rw [if_pos h, if_neg (Nat.pos_iff_ne_zero.1 h)]
      congr 1
      ring
  exact key (countStudentsWithStatus db "inactive") db.students.length

/-- After removing the course with the given id from a collection whose
ids are pairwise distinct, no course with that id remains. -/
theorem find_removeCourseById_eq_none (l : List Course) (cid : String)
    (hids : (l.map (fun c => c.id)).Nodup) :
    (removeCourseById l cid).find? (fun c => c.id = cid) = none := by
  induction l with
  | nil => rfl
  | cons c rest ih =>
    simp only [List.map_cons, List.nodup_cons] at hids
    by_cases hc : c.id = cid
    · simp only [removeCourseById, if_pos hc]
      refine List.find?_eq_none.2 fun u hu => ?_
      have : u.id ≠ c.id := by
        intro he
        exact hids.1 (he ▸ List.mem_map_of_mem (fun c => c.id) hu)
      simp [hc ▸ this]
    · simp only [removeCourseById, if_neg hc]
      rw [List.find?_cons_of_neg _ (by simp [hc])]
      exact ih hids.2

/-! ## Claim C8: deleting a course with no students, then getting it -/

/-- C8: when course `c` exists under the identifier, no student's
`course` field equals the identifier, and course ids are pairwise
distinct (MongoDB's `_id` is the primary key), `DELETE /api/courses/:id`
answers 200 with the confirmation message, and a subsequent
`GET /api/courses/:id` on the resulting database answers 404. -/
theorem c8_deleteCourse_then_get (db : Db) (cid : String) (c : Course)
    (hids : (db.courses.map (fun c => c.id)).Nodup)
    (hfind : findCourseById db cid = some c)
    (hnostud : ∀ s ∈ db.students, s.course ≠ cid) :
    (deleteCourseHandler db cid).1 = (200, "Course deleted successfully") ∧
    getCourseHandler (deleteCourseHandler db cid).2 cid = (404, none) := by
  have hcount : countStudentsInCourse db cid = 0 := by
    simp only [countStudentsInCourse, List.length_eq_zero]
    exact List.filter_eq_nil_iff.2 fun s hs => by simp [hnostud s hs]
  have hgone := find_removeCourseById_eq_none db.courses cid hids
  have hfind2 : db.courses.find? (fun c => c.id = cid) = some c := hfind
  constructor <;>
    simp [deleteCourseHandler, getCourseHandler, findCourseById, hcount, hfind2, hgone]

/-- C8, witness: the only course has no enrolled student; deleting it
succeeds and it is no longer retrievable. -/
theorem c8_deleteCourse_then_get_witness :
    (deleteCourseHandler
        ⟨[⟨"0123456789abcdef01234567", "Cara", "cara@example.com", "other", 0, "active"⟩],
         [⟨"c8", "Analysis", "intro", 6, "active"⟩]⟩ "c8").1
      = (200, "Course deleted successfully") ∧
    getCourseHandler
        (deleteCourseHandler
          ⟨[⟨"0123456789abcdef01234567", "Cara", "cara@example.com", "other", 0, "active"⟩],
           [⟨"c8", "Analysis", "intro", 6, "active"⟩]⟩ "c8").2 "c8"
      = (404, none) :=
  c8_deleteCourse_then_get
    ⟨[⟨"0123456789abcdef01234567", "Cara", "cara@example.com", "other", 0, "active"⟩],
     [⟨"c8", "Analysis", "intro", 6, "active"⟩]⟩ "c8"
    ⟨"c8", "Analysis", "intro", 6, "active"⟩
    (by decide) (by decide) (by decide)

/-! ## Claim C10: dashboard count identities -/

/-- One `$group` step adds exactly one to the grouped total. -/
theorem sum_bumpCourseCount (acc : List (String × Nat)) (c : String) :
    ((bumpCourseCount acc c).map Prod.snd).sum = ((acc.map Prod.snd)).sum + 1 := by
  induction acc with
  | nil => simp [bumpCourseCount]
  | cons kv rest ih =>
    obtain ⟨k, n⟩ := kv
    by_cases hk : k = c
    · simp [bumpCourseCount, hk]
      omega
    · simp [bumpCourseCount, hk, ih]
      omega

/-- The grouped per-course counts accumulate to the number of grouped
documents. -/
theorem sum_courseCounts_foldl (l : List Student) (acc : List (String × Nat)) :
    (((l.foldl (fun a s => bumpCourseCount a s.course) acc).map Prod.snd)).sum
      = (acc.map Prod.snd).sum + l.length := by
  induction l generalizing acc with
  | nil => simp
  | cons s rest ih =>
    simp only [List.foldl_cons, ih, sum_bumpCourseCount, List.length_cons]
    omega

/-- C10: when every stored student's status is "active" or "inactive",
the dashboard object satisfies `totalStudents = activeStudents +
graduates`, and the per-course counts in `courseCounts` sum to
`totalStudents`. -/
theorem c10_dashboard_partitions (db : Db)
    (h : ∀ s ∈ db.students, s.status = "active" ∨ s.status = "inactive") :
    (getDashboardStats db).totalStudents
      = (getDashboardStats db).activeStudents + (getDashboardStats db).graduates ∧
    ((getDashboardStats db).courseCounts.map Prod.snd).sum
      = (getDashboardStats db).totalStudents := by
  constructor
  · show db.students.length
      = countStudentsWithStatus db "active" + countStudentsWithStatus db "inactive"
    unfold countStudentsWithStatus
    rw [List.length_eq_countP_add_countP (fun s : Student => s.status = "active")]
    congr 1
    refine List.countP_congr fun s hs => ?_
    rcases h s hs with ha | ha <;> simp [ha]
  · show ((courseCountsOf db.students).map Prod.snd).sum = db.students.length
    unfold courseCountsOf
    simpa using sum_courseCounts_foldl db.students []

/-- C10, witness: two students, one active and one inactive, in two
courses. -/
theorem c10_dashboard_partitions_witness :
    (getDashboardStats
        ⟨[⟨"0123456789abcdef01234567", "Dan", "dan@example.com", "c1", 0, "active"⟩,
          ⟨"0123456789abcdef01234568", "Eve", "eve@example.com", "c2", 0, "inactive"⟩],
         []⟩).totalStudents
      = (getDashboardStats
          ⟨[⟨"0123456789abcdef01234567", "Dan", "dan@example.com", "c1", 0, "active"⟩,
            ⟨"0123456789abcdef01234568", "Eve", "eve@example.com", "c2", 0, "inactive"⟩],
           []⟩).activeStudents
        + (getDashboardStats
            ⟨[⟨"0123456789abcdef01234567", "Dan", "dan@example.com", "c1", 0, "active"⟩,
              ⟨"0123456789abcdef01234568", "Eve", "eve@example.com", "c2", 0, "inactive"⟩],
             []⟩).graduates :=
  (c10_dashboard_partitions
    ⟨[⟨"0123456789abcdef01234567", "Dan", "dan@example.com", "c1", 0, "active"⟩,
      ⟨"0123456789abcdef01234568", "Eve", "eve@example.com", "c2", 0, "inactive"⟩],
     []⟩ (by decide)).1

/-- A query with no regex metacharacter parses into literal atoms only. -/
theorem parseQuery_of_no_metachar (q : String)
    (h : ∀ c ∈ q.toList, c ∉ regexMetachars) :
    parseQuery q = q.toList.map PatAtom.lit := by
  unfold parseQuery
  refine List.map_congr_left fun c hc => ?_
  have hdot : c ≠ '.' := fun he => h c hc (by rw [he]; decide)
  simp [hdot]

/-- On literal atoms, anchored regex matching is the case-insensitive
prefix test. -/
theorem matchesAt_map_lit (p : List Char) :
    ∀ s, matchesAt (p.map PatAtom.lit) s = prefixMatchCI p s := by
  induction p with
  | nil => intro s; cases s <;> rfl
  | cons a ps ih =>
    intro s
    cases s with
    | nil => rfl
    | cons c cs => simp [matchesAt, prefixMatchCI, atomMatches, ih]

/-- On literal atoms, unanchored regex matching is case-insensitive
literal substring containment. -/
theorem regexTest_map_lit (p : List Char) :
    ∀ s, regexTest (p.map PatAtom.lit) s = containsCI p s := by
  intro s
  induction s with
  | nil => simp [regexTest, containsCI, matchesAt_map_lit]
  | cons c cs ih => simp [regexTest, containsCI, matchesAt_map_lit, ih]

/-- The case-insensitive prefix test is the prefix relation between the
lowercased lists. -/
theorem prefixMatchCI_iff (p : List Char) :
    ∀ s, prefixMatchCI p s = true ↔ (p.map Char.toLower) <+: (s.map Char.toLower) := by
  induction p with
  | nil => intro s; simp [prefixMatchCI]
  | cons a ps ih =>
    intro s
    cases s with
    | nil => simp [prefixMatchCI]
    | cons c cs =>
      simp [prefixMatchCI, ih, List.cons_prefix_cons]

/-- Case-insensitive literal containment is the infix relation between
the lowercased lists: `containsCI` indeed says "the pattern occurs
case-insensitively as a contiguous substring of the text". -/
theorem containsCI_iff (p : List Char) :
    ∀ s, containsCI p s = true ↔ (p.map Char.toLower) <:+: (s.map Char.toLower) := by
  intro s
  induction s with
  | nil =>
    simp [containsCI, prefixMatchCI_iff]
  | cons c cs ih =>
    simp [containsCI, prefixMatchCI_iff, ih, List.infix_cons_iff]

/-! ## Claim C3: the student search -/

/-- C3, counterexample.  The handler hands the query to `$regex`, so the
query `"."` (the regex wildcard) matches the stored student whose fields
are `"ab"`, `"x@y"`, `"cs"`, though none of them contains the character
`"."`: the returned list is not the literal-substring match set, which
is empty here. -/
theorem c3_search_counterexample :
    searchStudentsHandler
        ⟨[⟨"0123456789abcdef01234567", "ab", "x@y", "cs", 0, "active"⟩], []⟩ "."
      = [⟨"0123456789abcdef01234567", "ab", "x@y", "cs", 0, "active"⟩] ∧
    specSearchStudents
        ⟨[⟨"0123456789abcdef01234567", "ab", "x@y", "cs", 0, "active"⟩], []⟩ "."
      = [] ∧
    searchStudentsHandler
        ⟨[⟨"0123456789abcdef01234567", "ab", "x@y", "cs", 0, "active"⟩], []⟩ "."
      ≠ specSearchStudents
          ⟨[⟨"0123456789abcdef01234567", "ab", "x@y", "cs", 0, "active"⟩], []⟩ "." := by
  refine ⟨by decide, by decide, by decide⟩

/-- C3, amended: the handler interprets the query as a case-insensitive
regular-expression pattern.  For every query containing no regex
metacharacter it returns exactly the students whose name, email, or
course case-insensitively contains the query as a literal substring
(logical OR across the three fields), each stored student appearing at
most once; metacharacter queries can match students not containing the
literal substring. -/
theorem c3_search_amended (db : Db) (q : String)
    (hq : ∀ c ∈ q.toList, c ∉ regexMetachars) :
    searchStudentsHandler db q = specSearchStudents db q ∧
    (db.students.Nodup → (searchStudentsHandler db q).Nodup) := by
  have hparse := parseQuery_of_no_metachar q hq
  constructor
  · unfold searchStudentsHandler specSearchStudents
    refine List.filter_congr fun s _ => ?_
    unfold studentMatchesQuery
    rw [hparse, regexTest_map_lit, regexTest_map_lit, regexTest_map_lit]
    cases containsCI q.toList s.name.toList <;>
      cases containsCI q.toList s.course.toList <;>
        cases containsCI q.toList s.email.toList <;> rfl
  · intro h
    exact h.filter _

/-- C3, witness: the metacharacter-free query `"ALI"` returns exactly the
student whose name contains `"ali"` case-insensitively. -/
theorem c3_search_amended_witness :
    searchStudentsHandler
        ⟨[⟨"0123456789abcdef01234567", "Alice", "a@ex", "cs", 0, "active"⟩,
          ⟨"0123456789abcdef01234568", "Bob", "b@ex", "cs", 0, "active"⟩], []⟩ "ALI"
      = specSearchStudents
          ⟨[⟨"0123456789abcdef01234567", "Alice", "a@ex", "cs", 0, "active"⟩,
            ⟨"0123456789abcdef01234568", "Bob", "b@ex", "cs", 0, "active"⟩], []⟩ "ALI" ∧
    specSearchStudents
        ⟨[⟨"0123456789abcdef01234567", "Alice", "a@ex", "cs", 0, "active"⟩,
          ⟨"0123456789abcdef01234568", "Bob", "b@ex", "cs", 0, "active"⟩], []⟩ "ALI"
      = [⟨"0123456789abcdef01234567", "Alice", "a@ex", "cs", 0, "active"⟩] :=
  ⟨(c3_search_amended
      ⟨[⟨"0123456789abcdef01234567", "Alice", "a@ex", "cs", 0, "active"⟩,
        ⟨"0123456789abcdef01234568", "Bob", "b@ex", "cs", 0, "active"⟩], []⟩ "ALI"
      (by decide)).1,
   by decide⟩

/-- An element of the collection after a replace-by-id was either already
stored or is the replacement document. -/
theorem mem_replaceStudentById (sid : String) (s2 t : Student) :
    ∀ l : List Student, t ∈ replaceStudentById l sid s2 → t ∈ l ∨ t = s2 := by
  intro l
  induction l with
  | nil => intro ht; simp [replaceStudentById] at ht
  | cons s rest ih =>
    intro ht
    by_cases hc : s.id = sid
    · simp only [replaceStudentById, if_pos hc] at ht
      rcases List.mem_cons.1 ht with h | h
      · right; exact h
      · left; exact List.mem_cons_of_mem _ h
    · simp only [replaceStudentById, if_neg hc] at ht
      rcases List.mem_cons.1 ht with h | h
      · left; exact h ▸ List.mem_cons_self _ _
      · rcases ih h with h2 | h2
        · left; exact List.mem_cons_of_mem _ h2
        · right; exact h2

/-- Replacing the document with a given id keeps the stored emails
pairwise distinct, provided ids are pairwise distinct and no *other*
document carries the replacement's email (the unique-index guard). -/
theorem nodup_emails_replaceStudentById (sid : String) (s2 : Student) :
    ∀ l : List Student,
      (l.map (fun s => s.id)).Nodup →
      (l.map (fun s => s.email)).Nodup →
      (∀ t ∈ l, t.id ≠ sid → t.email ≠ s2.email) →
      ((replaceStudentById l sid s2).map (fun s => s.email)).Nodup := by
  intro l
  induction l with
  | nil => intro _ _ _; simp [replaceStudentById]
  | cons s rest ih =>
    intro hids hemails hguard
    simp only [List.map_cons, List.nodup_cons] at hids hemails
    by_cases hc : s.id = sid
    · simp only [replaceStudentById, if_pos hc, List.map_cons, List.nodup_cons]
      refine ⟨fun hmem => ?_, hemails.2⟩
      obtain ⟨u, hu, he⟩ := List.mem_map.1 hmem
      have hne : u.id ≠ sid := by
        intro h2
        exact hids.1 (hc ▸ h2 ▸ List.mem_map_of_mem (fun s => s.id) hu)
      exact hguard u (List.mem_cons_of_mem _ hu) hne he
    · simp only [replaceStudentById, if_neg hc, List.map_cons, List.nodup_cons]
      refine ⟨fun hmem => ?_,
        ih hids.2 hemails.2 fun t ht => hguard t (List.mem_cons_of_mem _ ht)⟩
      obtain ⟨u, hu, he⟩ := List.mem_map.1 hmem
      rcases mem_replaceStudentById sid s2 u rest hu with h2 | h2
      · exact hemails.1 (he ▸ List.mem_map_of_mem (fun s => s.email) h2)
      · exact hguard s (List.mem_cons_self _ _) hc (by rw [← he, h2])

/-- Deleting by id yields a sublist of the collection. -/
theorem removeStudentById_sublist (sid : String) :
    ∀ l : List Student, List.Sublist (removeStudentById l sid) l := by
  intro l
  induction l with
  | nil => simp [removeStudentById]
  | cons s rest ih =>
    by_cases hc : s.id = sid
    · simp only [removeStudentById, if_pos hc]
      exact List.sublist_cons_self s rest
    · simp only [removeStudentById, if_neg hc]
      exact ih.cons₂ s

/-! ## Claim C7: email uniqueness -/

/-- C7: on a database whose stored ids and emails are pairwise distinct
(MongoDB's `_id` is the primary key and the schema's unique index on
`email` holds), `POST /api/students` with an email already in use
answers 400 and persists nothing; and the email-uniqueness invariant is
preserved by every modelled operation on the student collection — create,
update and delete — while course deletion does not touch it. -/
theorem c7_email_unique_invariant (db : Db)
    (hids : (db.students.map (fun s => s.id)).Nodup)
    (hemails : (db.students.map (fun s => s.email)).Nodup) :
    (∀ freshId body, (∃ s ∈ db.students, s.email = body.email) →
        createStudentHandler db freshId body = (400, db))
    ∧ (∀ freshId body,
        ((createStudentHandler db freshId body).2.students.map
          (fun s => s.email)).Nodup)
    ∧ (∀ sid p,
        ((updateStudentHandler db sid p).2.students.map (fun s => s.email)).Nodup)
    ∧ (∀ sid,
        ((deleteStudentHandler db sid).2.students.map (fun s => s.email)).Nodup)
    ∧ (∀ cid, (deleteCourseHandler db cid).2.students = db.students) := by
  refine ⟨?_, ?_, ?_, ?_, ?_⟩
  · rintro fid body ⟨s, hs, he⟩
    have hdup : db.students.any (fun s => s.email = body.email) = true :=
      List.any_eq_true.2 ⟨s, hs, by simp [he]⟩
    simp [createStudentHandler, hdup]
  · intro fid body
    by_cases hdup : db.students.any (fun s => s.email = body.email) = true
    · simp [createStudentHandler, hdup, hemails]
    · have hfresh := List.any_eq_false.1 (Bool.eq_false_iff.2 hdup)
      simp only [createStudentHandler, hdup, if_neg, Bool.false_eq_true,
        not_false_eq_true, if_false]
      rw [List.map_append, List.nodup_append]
      refine ⟨hemails, by simp, fun a ha hb => ?_⟩
      obtain ⟨u, hu, he⟩ := List.mem_map.1 ha
      simp only [List.map_cons, List.map_nil, List.mem_singleton] at hb
      exact hfresh u hu (by simp [he, hb])
  · intro sid p
    unfold updateStudentHandler
    cases hfind : findStudentById db sid with
    | none => simpa using hemails
    | some s =>
      by_cases hdup :
          db.students.any
            (fun t => t.id ≠ sid && t.email = (applyPatch s p).email) = true
      · have hprop := hdup
        rw [List.any_eq_true] at hprop
        simp only [Bool.and_eq_true, decide_eq_true_eq, ne_eq] at hprop
        simp [hprop, hemails]
      · have hguard := List.any_eq_false.1 (Bool.eq_false_iff.2 hdup)
        simp only [hdup, Bool.false_eq_true, not_false_eq_true, if_false, if_neg]
        refine nodup_emails_replaceStudentById sid (applyPatch s p) db.students
          hids hemails fun t ht hne => ?_
        have := hguard t ht
        simp only [Bool.and_eq_true, decide_eq_true_eq, bne_iff_ne, ne_eq,
          not_and] at this
        intro he
        exact absurd he (by simpa [hne] using this)
  · intro sid
    unfold deleteStudentHandler
    cases hfind : findStudentById db sid with
    | none => simpa using hemails
    | some s =>
      exact hemails.sublist ((removeStudentById_sublist sid db.students).map _)
  · intro cid
    unfold deleteCourseHandler
    by_cases hc : 0 < countStudentsInCourse db cid
    · simp [hc]
    · cases hfind : findCourseById db cid <;> simp [hc, hfind]

/-- C7, witness: creating a student with the already-stored email
`"alice@example.com"` answers 400 and leaves the store as it was. -/
theorem c7_email_unique_invariant_witness :
    createStudentHandler
        ⟨[⟨"0123456789abcdef01234567", "Alice", "alice@example.com", "c1", 0, "active"⟩],
         []⟩
        "0123456789abcdef01234568"
        ⟨"Mallory", "alice@example.com", "c2", 0, "active"⟩
      = (400,
         ⟨[⟨"0123456789abcdef01234567", "Alice", "alice@example.com", "c1", 0, "active"⟩],
          []⟩) :=
  (c7_email_unique_invariant
    ⟨[⟨"0123456789abcdef01234567", "Alice", "alice@example.com", "c1", 0, "active"⟩], []⟩
    (by decide) (by decide)).1
    "0123456789abcdef01234568"
    ⟨"Mallory", "alice@example.com", "c2", 0, "active"⟩ (by decide)

end SMS
